import Mathlib

/-!
Verification of the Nutri_AI conversational backend core:
the follow-up detector (`backend/app/utils/followup_detector.py`),
the soft-context inference and merge policy
(`backend/app/services/intent_service.py`),
the session stores (`backend/app/memory/session_store.py`,
`backend/app/utils/session_manager.py`),
the intent-profile merge (caller in `backend/app/api/routes/intent.py`),
and the chat orchestrator's food-context handling
(`backend/app/api/routes/chat.py`).

Python strings are modelled as `List Char`; confidences (Python floats
0.0 .. 0.98, all exact multiples of 0.01) are modelled as naturals scaled
by 100 (threshold 0.6 becomes 60), which preserves every comparison the
source performs.
-/

namespace NutriAI

/-! ## Character / string primitives mirroring the Python built-ins -/

/-- Python whitespace as used by `str.split()` / `str.strip()`:
space, tab, newline, carriage return, vertical tab, form feed. -/
def isSpaceChar (c : Char) : Bool :=
  c = ' ' || c = '\t' || c = '\n' || c = '\x0d' || c = '\x0b' || c = '\x0c'

def isUpperCh (c : Char) : Bool := 'A' ≤ c && c ≤ 'Z'

def isLowerCh (c : Char) : Bool := 'a' ≤ c && c ≤ 'z'

def isDigitCh (c : Char) : Bool := '0' ≤ c && c ≤ '9'

/-- Word character for the regex `\b` boundary (`[A-Za-z0-9_]`; the
source's messages that reach the regex branch are ASCII). -/
def isWordCh (c : Char) : Bool :=
  isUpperCh c || isLowerCh c || isDigitCh c || c = '_'

/-- ASCII lowering, mirroring `str.lower()` on the ASCII pattern tables. -/
def lowerCh (c : Char) : Char :=
  if isUpperCh c then Char.ofNat (c.toNat + 32) else c

def lowerL (l : List Char) : List Char := l.map lowerCh

/-- Python `str.strip()`. -/
def stripL (l : List Char) : List Char :=
  ((l.dropWhile isSpaceChar).reverse.dropWhile isSpaceChar).reverse

/-- Does `hay` start with `needle` (`str.startswith`)? -/
def startsWithL : List Char → List Char → Bool
  | _, [] => true
  | [], _ :: _ => false
  | a :: has, b :: bs => a = b && startsWithL has bs

/-- Python substring containment `needle in hay`. -/
def containsL (hay needle : List Char) : Bool :=
  match hay with
  | [] => needle.isEmpty
  | _ :: t => startsWithL hay needle || containsL t needle

/-- Python `len(s.split())`: number of maximal non-whitespace runs. -/
def countWordsGo (inWord : Bool) : List Char → Nat
  | [] => 0
  | c :: t =>
    if isSpaceChar c then countWordsGo false t
    else (if inWord then 0 else 1) + countWordsGo true t

def countWords (l : List Char) : Nat := countWordsGo false l

/-- Python `s.endswith` with the question-mark character. -/
def endsWithQm (l : List Char) : Bool :=
  match l.getLast? with
  | some c => c = '?'
  | none => false

/-! ## The regex `\b[A-Z][a-z]+\s+[A-Z][a-z]+\b` from
`is_followup_question` (explicit new-product detection). The pattern's
character classes are pairwise disjoint at each greedy step, so the
greedy left-to-right scan below is equivalent to the backtracking
semantics of `re.findall`; we only need match existence. -/

/-- Try to match `[A-Z][a-z]+\s+[A-Z][a-z]+\b` at the head of `l`. -/
def matchCapPairHere (l : List Char) : Bool :=
  match l with
  | [] => false
  | c :: rest =>
    if isUpperCh c then
      let lowers := rest.takeWhile isLowerCh
      if lowers.isEmpty then false
      else
        let rest2 := rest.dropWhile isLowerCh
        let sps := rest2.takeWhile isSpaceChar
        if sps.isEmpty then false
        else
          match rest2.dropWhile isSpaceChar with
          | [] => false
          | d :: rest4 =>
            if isUpperCh d then
              let lowers2 := rest4.takeWhile isLowerCh
              if lowers2.isEmpty then false
              else
                match rest4.dropWhile isLowerCh with
                | [] => true
                | e :: _ => !isWordCh e
            else false
    else false

/-- Scan every position; `prevWord` tracks whether the previous character
was a word character (for the leading `\b`). -/
def hasCapPairGo (prevWord : Bool) : List Char → Bool
  | [] => false
  | c :: t =>
    (!prevWord && matchCapPairHere (c :: t)) || hasCapPairGo (isWordCh c) t

/-- True when `re.findall` of the capitalized-pair regex on `message` is non-empty. -/
def hasCapPair (l : List Char) : Bool := hasCapPairGo false l

/-! ## Pattern tables (`followup_detector.py`, lines 13-71) -/

def REFERENCE_PRONOUNS_EN : List String := ["this", "it", "that", "these", "those"]

def REFERENCE_PRONOUNS_HI : List String :=
  ["yeh", "ye", "woh", "wo", "isko", "usko", "iski", "uski", "aapko"]

def REFERENCE_PRONOUNS_GU : List String := ["aa", "e", "te", "shu", "shu che"]

def REFERENCE_PRONOUNS_HINGLISH : List String :=
  ["ye", "this", "wo", "that", "isko", "usko"]

def ALL_REFERENCE_PRONOUNS : List String :=
  REFERENCE_PRONOUNS_EN ++ REFERENCE_PRONOUNS_HI ++
    REFERENCE_PRONOUNS_GU ++ REFERENCE_PRONOUNS_HINGLISH

def CONSUMPTION_QUERIES_EN : List String :=
  ["can i eat", "can we eat", "safe to eat", "okay to eat",
   "daily", "every day", "everyday",
   "safe for kids", "safe for children", "for kids", "for children",
   "for babies", "for toddlers",
   "diabetes", "diabetic", "high bp", "blood pressure", "heart",
   "pregnant", "pregnancy", "weight loss", "lose weight",
   "healthy", "good for me", "bad for me"]

def CONSUMPTION_QUERIES_HI : List String :=
  ["kya kha sakte", "kya le sakte", "safe hai", "theek hai",
   "roz", "daily", "har din", "bachchon ke liye", "bacchon ke liye",
   "diabetes", "bp", "pregnancy", "sehat", "health"]

def CONSUMPTION_QUERIES_GU : List String :=
  ["khaay shakay", "khavay", "safe che", "theek che",
   "daily", "har roj", "baalo mate", "bachcho mate",
   "diabetes", "bp", "pregnancy", "swasth", "health"]

def CONSUMPTION_QUERIES_HINGLISH : List String :=
  ["kha sakte hain", "le sakte", "safe hai kya",
   "roz kha sakte", "daily okay", "kids ke liye",
   "health ke liye", "diabetes mein"]

def ALL_CONSUMPTION_QUERIES : List String :=
  CONSUMPTION_QUERIES_EN ++ CONSUMPTION_QUERIES_HI ++
    CONSUMPTION_QUERIES_GU ++ CONSUMPTION_QUERIES_HINGLISH

def AMOUNT_QUERIES : List String :=
  ["how much", "how many", "portion", "serving", "quantity",
   "kitna", "kitni", "keto", "ket lu", "amount"]

def ALTERNATIVE_QUERIES : List String :=
  ["instead", "alternative", "substitute", "replace", "better option",
   "uske jagah", "instead", "alternative", "badle mein"]

def FOLLOWUP_QUESTION_WORDS : List String :=
  ["what", "why", "how", "when", "should", "can",
   "kya", "kyun", "kaise", "kab", "chahiye",
   "shu", "kevi rite", "kyare"]

def ASKING_ABOUT_WORDS : List String :=
  ["about", "ke baare mein", "vishay", "regarding"]

/-! ## `is_followup_question` (lines 74-139) -/

/-- The `reason` component of the returned tuple, as structured data
(the source formats these as f-strings; the matched table entry is
carried as the constructor argument). -/
inductive Reason where
  | newImage : Reason
  | pronoun (p : String) : Reason
  | consumptionWithPronoun (q : String) : Reason
  | consumption (q : String) : Reason
  | amount (q : String) : Reason
  | alternative (q : String) : Reason
  | shortQuestion (w : String) : Reason
  | differentProduct : Reason
  | shortMessage : Reason
  | longMessage : Reason
  deriving DecidableEq, Repr

/-- Result of `is_followup_question`: the `(is_followup, confidence,
reason)` tuple, confidence scaled by 100. -/
structure FollowupResult where
  is_followup : Bool
  confidence : Nat
  reason : Reason
  deriving DecidableEq, Repr

/-- Substring test of a table entry against the lowered message. -/
def hitsIn (ml : List Char) (p : String) : Bool := containsL ml p.toList

/-- Lines 96-99: short message (≤ 10 words) containing a reference
pronoun as a substring → follow-up at 0.95. -/
def pronounRule (ml : List Char) (wc : Nat) : Option FollowupResult :=
  if wc ≤ 10 then
    (ALL_REFERENCE_PRONOUNS.find? (hitsIn ml)).map (fun p => ⟨true, 95, .pronoun p⟩)
  else none

/-- Lines 101-108: consumption/safety phrase, 0.98 with a pronoun,
else 0.85. -/
def consumptionRule (ml : List Char) : Option FollowupResult :=
  (ALL_CONSUMPTION_QUERIES.find? (hitsIn ml)).map (fun q =>
    match ALL_REFERENCE_PRONOUNS.find? (hitsIn ml) with
    | some _ => ⟨true, 98, .consumptionWithPronoun q⟩
    | none => ⟨true, 85, .consumption q⟩)

/-- Lines 110-113: amount query → 0.8. -/
def amountRule (ml : List Char) : Option FollowupResult :=
  (AMOUNT_QUERIES.find? (hitsIn ml)).map (fun q => ⟨true, 80, .amount q⟩)

/-- Lines 115-118: alternative query → 0.9. -/
def alternativeRule (ml : List Char) : Option FollowupResult :=
  (ALTERNATIVE_QUERIES.find? (hitsIn ml)).map (fun q => ⟨true, 90, .alternative q⟩)

/-- Lines 120-124: ≤ 8 words, ends in "?", starts with a question
word → 0.75. -/
def shortQuestionRule (ml : List Char) (wc : Nat) : Option FollowupResult :=
  if wc ≤ 8 && endsWithQm (stripL ml) then
    (FOLLOWUP_QUESTION_WORDS.find? (fun w => startsWithL ml w.toList)).map
      (fun w => ⟨true, 75, .shortQuestion w⟩)
  else none

/-- Lines 126-139: capitalized product-pair regex (not an "asking
about" message) → not follow-up; else ≤ 12 words → 0.65; else not
follow-up. -/
def defaultRule (orig ml : List Char) (wc : Nat) (has_new_image : Bool) : FollowupResult :=
  if hasCapPair orig && !(ASKING_ABOUT_WORDS.any (hitsIn ml)) then
    ⟨false, 0, .differentProduct⟩
  else if wc ≤ 12 && !has_new_image then ⟨true, 65, .shortMessage⟩
  else ⟨false, 0, .longMessage⟩

/-- Function `is_followup_question(message, has_new_image)`
(`followup_detector.py`, lines 74-139): the rules above tried in source
order, first match wins (`Option.orElse` chain = the early returns). -/
def is_followup_question (message : String) (has_new_image : Bool) : FollowupResult :=
  if has_new_image then ⟨false, 0, .newImage⟩
  else
    let ml := stripL (lowerL message.toList)
    let wc := countWords message.toList
    (((((pronounRule ml wc).orElse
          (fun _ => consumptionRule ml)).orElse
            (fun _ => amountRule ml)).orElse
              (fun _ => alternativeRule ml)).orElse
                (fun _ => shortQuestionRule ml wc)).getD
      (defaultRule message.toList ml wc has_new_image)

/-- Function `should_use_food_context(message, has_food_context, has_new_image)`
(`followup_detector.py`, lines 142-173). -/
def should_use_food_context (message : String) (has_food_context has_new_image : Bool) : Bool :=
  if !has_food_context then false
  else if has_new_image then false
  else
    let r := is_followup_question message has_new_image
    r.is_followup && decide (60 ≤ r.confidence)

/-! ## Soft context and its merge policy (`intent_service.py`) -/

/-- The three-valued confidence of a soft context
(`intent_service.py`, line 175: the keys of `confidence_order`). -/
inductive ConfidenceLevel where
  | uncertain : ConfidenceLevel
  | somewhat_sure : ConfidenceLevel
  | fairly_confident : ConfidenceLevel
  deriving DecidableEq, Repr

/-- Source `confidence_order`: uncertain 0, somewhat_sure 1, fairly_confident 2. -/
def confidence_order : ConfidenceLevel → Nat
  | .uncertain => 0
  | .somewhat_sure => 1
  | .fairly_confident => 2

/-- A soft context dict as produced and merged by
`AINativeIntentService`; `hedge_language = ""` models Python `None` /
empty (the source tests falsiness with `or`). -/
structure SoftContext where
  likely_goal : String
  possible_context : Option String
  soft_concerns : List String
  confidence_level : ConfidenceLevel
  hedge_language : String
  detected_language : String
  deriving DecidableEq, Repr

/-- Source `_default_uncertain_context` (`intent_service.py`, lines 155-163);
`detected_language` is added by the caller before returning. -/
def default_uncertain_context : SoftContext :=
  { likely_goal := "curiosity"
    possible_context := none
    soft_concerns := []
    confidence_level := .uncertain
    hedge_language := "I\x27m not sure what you\x27re most interested in here"
    detected_language := "en" }

/-- The Hinglish marker words of `_detect_language`
(`intent_service.py`, lines 113-118). -/
def HINGLISH_WORDS : List String :=
  ["hai", "hain", "kya", "kaisa", "kaise", "acha", "achha", "theek", "thik",
   "nahi", "nahin", "haan", "han", "koi", "kuch", "sab", "sabse", "mein",
   "main", "aur", "ya", "phir", "wala", "wali", "wale", "ke", "ki", "ka",
   "se", "mein", "par", "pe", "ko", "ne", "toh", "to", "bhi", "hi"]

/-- Devanagari code-point test (the regex `[ऀ-ॿ]`). -/
def isDevanagari (c : Char) : Bool := 0x900 ≤ c.toNat && c.toNat ≤ 0x97F

/-- Source `_detect_language` (`intent_service.py`, lines 104-128): Devanagari
anywhere → "hi"; else 2+ Hinglish marker substrings → "hinglish";
else "en". -/
def detect_language (message : String) : String :=
  if message.toList.any isDevanagari then "hi"
  else
    let ml := lowerL message.toList
    if 2 ≤ (HINGLISH_WORDS.filter (hitsIn ml)).length then "hinglish"
    else "en"

/-- Outcome of the external reasoning call plus JSON parsing inside
`soft_infer_context`: the Gemini call may throw, its text may fail
`json.loads`, or it parses to a context object. -/
inductive LLMOutcome where
  | failure : LLMOutcome
  | unparsable : LLMOutcome
  | parsed (c : SoftContext) : LLMOutcome
  deriving DecidableEq, Repr

/-- Source `soft_infer_context` (`intent_service.py`, lines 38-102), with the
external call + parse abstracted into `outcome`: on a parse the parsed
data gets `detected_language` set; on either failure mode the default
uncertain context (with `detected_language`) is returned — the function
is total and never re-raises. -/
def soft_infer_context (message : String) (outcome : LLMOutcome) : SoftContext :=
  match outcome with
  | .parsed c => { c with detected_language := detect_language message }
  | .unparsable => { default_uncertain_context with detected_language := detect_language message }
  | .failure => { default_uncertain_context with detected_language := detect_language message }

/-- Source `merge_context_gently` (`intent_service.py`, lines 165-188).
`list(set(old) | set(new))[:3]` is modelled as deduplicating append then
`take 3` (same length and membership; Python's set iteration order is
unspecified). -/
def merge_context_gently (old_context new_context : SoftContext) : SoftContext :=
  if confidence_order old_context.confidence_level <
      confidence_order new_context.confidence_level then
    { new_context with
        hedge_language :=
          if new_context.hedge_language = "" then "I think this might be about..."
          else new_context.hedge_language }
  else
    { old_context with
        soft_concerns :=
          ((old_context.soft_concerns ++ new_context.soft_concerns).eraseDup).take 3 }

/-! ## Intent profiles (`models/intent_models.py`) and their merge -/

/-- Enum `IntentConfidence` (`intent_models.py`, lines 5-8). -/
inductive IntentConfidence where
  | low : IntentConfidence
  | medium : IntentConfidence
  | high : IntentConfidence
  deriving DecidableEq, Repr

/-- Model `IntentProfile` (`intent_models.py`, lines 10-18); `allergy_risks`
and `top_concerns` are sets of strings per the data model. -/
structure IntentProfile where
  user_goal : Option String
  dietary_style : Option String
  allergy_risks : Finset String
  audience : Option String
  top_concerns : Finset String
  confidence : IntentConfidence
  clarifying_question : Option String

/-- Modelled from the spec: `intent_service.merge_intent`, called from
`routes/intent.py` (line 48) but not defined anywhere under `src/`;
rules follow §4.4 of the spec: goal/diet overwritten only when new
confidence earns it, `allergy_risks`/`top_concerns` always set-union,
audience newest-wins, confidence sticky upward, clarifying question kept
only at low merged confidence. -/
def merge_intent (old new : IntentProfile) : IntentProfile :=
  let overwrite : Bool :=
    decide (new.confidence = .high) ||
      (decide (new.confidence = .medium) && decide (old.confidence = .low))
  let mergedConf : IntentConfidence :=
    if old.confidence = .high || new.confidence = .high then .high
    else new.confidence
  { user_goal := if overwrite then new.user_goal else old.user_goal
    dietary_style := if overwrite then new.dietary_style else old.dietary_style
    allergy_risks := old.allergy_risks ∪ new.allergy_risks
    audience := match new.audience with | some a => some a | none => old.audience
    top_concerns := old.top_concerns ∪ new.top_concerns
    confidence := mergedConf
    clarifying_question :=
      if mergedConf = .low then
        match new.clarifying_question with
        | some q => some q
        | none => old.clarifying_question
      else none }

/-! ## Session stores

Both stores keep a dict from session-id strings to session records; the
dict is modelled as a function `String → Option _`, timestamps
(`time.time()` / `datetime.now()`) as a `now : Nat` argument. All
operations are total Lean functions: the Python bodies contain no
`raise`, and the embedding makes "never raises for a missing session"
the totality of these definitions. -/

/-- A stored message `{role, content, timestamp}`. -/
structure StoredMsg where
  role : String
  content : String
  timestamp : Nat
  deriving DecidableEq, Repr

/-- Shallow dict for the `context` / `intent` payloads (values opaque). -/
abbrev Dict := List (String × String)

/-- Python `dict.update(u)`: keys of `u` overwrite, the rest of `d` survives. -/
def dictUpdate (d u : Dict) : Dict :=
  u ++ d.filter (fun kv => !(u.any (fun kv2 => kv2.1 = kv.1)))

/-- A session record of `InMemorySessionStore`
(`memory/session_store.py`, lines 17-24). -/
structure StoreSession where
  id : String
  created_at : Nat
  messages : List StoredMsg
  context : Dict
  intent : Dict

namespace InMemorySessionStore

/-- Field `self.sessions`. -/
def State := String → Option StoreSession

/-- The empty store (`__init__`). -/
def empty : State := fun _ => none

/-- Source `create_session_if_not_exists` (lines 75-84). -/
def create_session_if_not_exists (s : State) (id : String) (now : Nat) : State :=
  match s id with
  | some _ => s
  | none => fun i => if i = id then some ⟨id, now, [], [], []⟩ else s i

/-- Source `append_message` (lines 32-41): ensure the session exists, then
append to its `messages`. -/
def append_message (s : State) (id role content : String) (now : Nat) : State :=
  let s1 := create_session_if_not_exists s id now
  fun i =>
    if i = id then
      (s1 id).map (fun sess =>
        { sess with messages := sess.messages ++ [⟨role, content, now⟩] })
    else s1 i

/-- Source `get_session` (lines 28-30). -/
def get_session (s : State) (id : String) : Option StoreSession := s id

/-- Source `get_history` (lines 43-47): empty list for an unknown id. -/
def get_history (s : State) (id : String) : List StoredMsg :=
  match s id with
  | none => []
  | some sess => sess.messages

/-- Source `set_context` (lines 49-54). -/
def set_context (s : State) (id : String) (ctx : Dict) (now : Nat) : State :=
  let s1 := create_session_if_not_exists s id now
  fun i =>
    if i = id then (s1 id).map (fun sess => { sess with context := dictUpdate sess.context ctx })
    else s1 i

/-- Source `get_context` (lines 56-60): empty dict for an unknown id. -/
def get_context (s : State) (id : String) : Dict :=
  match s id with
  | none => []
  | some sess => sess.context

/-- Source `set_intent` (lines 62-67). -/
def set_intent (s : State) (id : String) (intent : Dict) (now : Nat) : State :=
  let s1 := create_session_if_not_exists s id now
  fun i =>
    if i = id then (s1 id).map (fun sess => { sess with intent := intent })
    else s1 i

/-- Source `get_intent` (lines 69-73): empty dict for an unknown id. -/
def get_intent (s : State) (id : String) : Dict :=
  match s id with
  | none => []
  | some sess => sess.intent

end InMemorySessionStore

/-- A session record of `SessionManager`
(`utils/session_manager.py`, lines 18-23). -/
structure MgrSession where
  created_at : Nat
  last_accessed : Nat
  conversation_history : List StoredMsg
  context : Dict

namespace SessionManager

/-- Field `self.sessions`. -/
def State := String → Option MgrSession

def empty : State := fun _ => none

/-- Source `get_session` (lines 27-34) refreshes `last_accessed` on hit; the
read component. -/
def get_session (s : State) (id : String) : Option MgrSession := s id

/-- Source `add_message` (lines 36-45): `get_session` then append — on an
unknown id the `if session:` guard makes the call a silent no-op (no
auto-create, message dropped). -/
def add_message (s : State) (id role content : String) (now : Nat) : State :=
  match s id with
  | none => s
  | some sess =>
    fun i =>
      if i = id then
        some { sess with
                 last_accessed := now
                 conversation_history := sess.conversation_history ++ [⟨role, content, now⟩] }
      else s i

/-- Source `get_conversation_history` (lines 47-52): empty list for an unknown id. -/
def get_conversation_history (s : State) (id : String) : List StoredMsg :=
  match s id with
  | none => []
  | some sess => sess.conversation_history

/-- Source `update_context` (lines 54-59): silent no-op on an unknown id. -/
def update_context (s : State) (id : String) (upd : Dict) (now : Nat) : State :=
  match s id with
  | none => s
  | some sess =>
    fun i =>
      if i = id then some { sess with last_accessed := now, context := dictUpdate sess.context upd }
      else s i

/-- Source `get_context` (lines 61-66): empty dict for an unknown id. -/
def get_context (s : State) (id : String) : Dict :=
  match s id with
  | none => []
  | some sess => sess.context

end SessionManager

/-! ## Chat orchestrator: food-context handling
(`routes/chat.py`, lines 89-103) -/

/-- The cached snapshot of the most recently analyzed product. -/
structure FoodContext where
  product_name : String
  deriving DecidableEq, Repr

/-- Modelled from the spec: `session_manager.clear_food_context` —
called at `routes/chat.py` line 97 but `SessionManager` under `src/`
has no food-context methods; per §4.1 it clears the session's stored
`food_context` slot. -/
def clear_food_context (_fc : Option FoodContext) : Option FoodContext := none

/-- Result of the food-context portion of a chat turn. -/
structure ChatFoodDecision where
  stored_after_reset : Option FoodContext
  use_context : Bool
  food_context_used : Option FoodContext
  deriving DecidableEq, Repr

/-- The food-context slice of `chat_stream_ai_native`
(`routes/chat.py`, lines 89-103): read the stored food context; if a new
image accompanies the turn, clear it (before follow-up classification);
then gate injection on `should_use_food_context`. -/
def chat_food_context_step (stored : Option FoodContext) (message : String)
    (has_new_image : Bool) : ChatFoodDecision :=
  let stored1 := if has_new_image then clear_food_context stored else stored
  let use := should_use_food_context message stored1.isSome has_new_image
  { stored_after_reset := stored1
    use_context := use
    food_context_used := if use then stored1 else none }

/-! ## Theorems -/

/-- C7: for every message, classification with `has_new_image = true`
returns `is_followup = False` with confidence 0 (the very first branch
of `is_followup_question`, before any other rule is consulted). -/
theorem new_image_never_followup (m : String) :
    is_followup_question m true = ⟨false, 0, .newImage⟩ := rfl

/-- C1 counterexample: for "is it safe for kids?" with
`has_new_image = False`, the confidence returned is 0.95, not the 0.98
the claim states: the short-message pronoun rule (code lines 96-99) runs
before the consumption-plus-pronoun rule (lines 102-106) and matches the
pronoun "it". -/
theorem isItSafeForKids_confidence_is_95_not_98 :
    (is_followup_question "is it safe for kids?" false).confidence = 95 ∧
      (is_followup_question "is it safe for kids?" false).confidence ≠ 98 := by
  decide

/-- C1 amended: for "is it safe for kids?" with `has_new_image = False`,
`is_followup_question` returns follow-up with confidence 0.95 via the
short-message reference-pronoun rule (pronoun "it"), and with food
context present `should_use_food_context` returns True. -/
theorem isItSafeForKids_followup_and_context_use :
    is_followup_question "is it safe for kids?" false = ⟨true, 95, .pronoun "it"⟩ ∧
      should_use_food_context "is it safe for kids?" true false = true := by
  decide

/-- C8: a context merge never lowers the held confidence level: for all
soft contexts, the merged confidence is at least the old one under
uncertain < somewhat_sure < fairly_confident. -/
theorem merge_context_confidence_monotone (old_context new_context : SoftContext) :
    confidence_order old_context.confidence_level ≤
      confidence_order (merge_context_gently old_context new_context).confidence_level := by
  unfold merge_context_gently
  split
  · simp only []
    omega
  · exact Nat.le_refl _

/-- C9: whenever the external reasoning call fails or its output is
unparsable, `soft_infer_context` returns the fixed default uncertain
context — goal "curiosity", no concerns, confidence "uncertain", the
generic hedge string — with only the detected language filled in; the
function is total, so the failure never propagates to the caller. -/
theorem soft_infer_failure_returns_default (msg : String) (o : LLMOutcome)
    (h : o = .failure ∨ o = .unparsable) :
    soft_infer_context msg o =
      { likely_goal := "curiosity"
        possible_context := none
        soft_concerns := []
        confidence_level := .uncertain
        hedge_language := "I\x27m not sure what you\x27re most interested in here"
        detected_language := detect_language msg } := by
  rcases h with rfl | rfl <;> rfl

/-- C9 witness: the failure outcome on a concrete message. -/
theorem soft_infer_failure_returns_default_witness :
    soft_infer_context "hello" .failure =
      { likely_goal := "curiosity"
        possible_context := none
        soft_concerns := []
        confidence_level := .uncertain
        hedge_language := "I\x27m not sure what you\x27re most interested in here"
        detected_language := detect_language "hello" } :=
  soft_infer_failure_returns_default "hello" .failure (Or.inl rfl)

/-- C2 counterexample: when the new context is strictly more confident,
`merge_context_gently` adopts its `soft_concerns` wholesale without the
cap, so a newly inferred context with four concerns yields a merged
context with four concerns. -/
theorem merge_context_soft_concerns_can_exceed_three :
    ¬ ((merge_context_gently default_uncertain_context
        { likely_goal := "curiosity"
          possible_context := none
          soft_concerns := ["sugar", "salt", "oil", "preservatives"]
          confidence_level := .somewhat_sure
          hedge_language := "maybe"
          detected_language := "en" }).soft_concerns.length ≤ 3) := by
  decide

/-- One merge keeps the concern list within the cap provided the newly
inferred context respects it (the keep-old branch truncates to 3, the
adopt-new branch copies the new list). -/
theorem merge_once_concern_bound (old c : SoftContext)
    (h : c.soft_concerns.length ≤ 3) :
    (merge_context_gently old c).soft_concerns.length ≤ 3 := by
  unfold merge_context_gently
  split
  · simpa using h
  · simp only [List.length_take]
    exact Nat.min_le_left _ _

/-- C2 amended: after at least one merge, and provided every newly
inferred context carries at most 3 soft concerns (as the default and the
truncating branch do), the merged context's `soft_concerns` has length
at most 3 — the initial context is unconstrained. The unamended claim
fails because the adopt-new branch does not truncate
(`merge_context_soft_concerns_can_exceed_three`). -/
theorem merge_context_soft_concerns_bounded_of_inputs_bounded
    (old : SoftContext) (news : List SoftContext)
    (hlen : ∀ c ∈ news, c.soft_concerns.length ≤ 3) (hne : news ≠ []) :
    (news.foldl merge_context_gently old).soft_concerns.length ≤ 3 := by
  induction news generalizing old with
  | nil => exact absurd rfl hne
  | cons c t ih =>
    rw [List.foldl_cons]
    rcases t with _ | ⟨d, t2⟩
    · rw [List.foldl_nil]
      exact merge_once_concern_bound old c (hlen c (List.mem_cons_self _ _))
    · exact ih (merge_context_gently old c)
        (fun x hx => hlen x (List.mem_cons_of_mem _ hx)) (by simp)

/-- C2 amended witness: a concrete five-concern initial context merged
with the default context lands within the cap. -/
theorem merge_context_soft_concerns_bounded_witness :
    (([default_uncertain_context]).foldl merge_context_gently
      { likely_goal := "curiosity"
        possible_context := none
        soft_concerns := ["a", "b", "c", "d", "e"]
        confidence_level := .fairly_confident
        hedge_language := ""
        detected_language := "en" }).soft_concerns.length ≤ 3 :=
  merge_context_soft_concerns_bounded_of_inputs_bounded
    { likely_goal := "curiosity"
      possible_context := none
      soft_concerns := ["a", "b", "c", "d", "e"]
      confidence_level := .fairly_confident
      hedge_language := ""
      detected_language := "en" }
    [default_uncertain_context] (by decide) (by decide)

/-- C5: on a chat turn carrying a new image, the orchestrator clears the
stored food context before follow-up classification, and
`should_use_food_context` returns False for the accompanying message
regardless of its content (and regardless of the food-context flag).
The food-context slot operations are modelled from the spec because
`SessionManager` under `src/` lacks them. -/
theorem chat_new_image_clears_and_skips_context
    (stored : Option FoodContext) (msg : String) :
    (chat_food_context_step stored msg true).stored_after_reset = none ∧
      (chat_food_context_step stored msg true).use_context = false ∧
      ∀ b, should_use_food_context msg b true = false := by
  refine ⟨rfl, rfl, fun b => ?_⟩
  cases b <;> rfl

/-- The flag/threshold agreement every rule's output satisfies:
follow-up iff confidence clears 0.6. -/
abbrev okRes (r : FollowupResult) : Prop := r.is_followup = true ↔ 60 ≤ r.confidence

theorem okRes_pronounRule {ml : List Char} {wc : Nat} {r : FollowupResult}
    (h : pronounRule ml wc = some r) : okRes r := by
  unfold pronounRule at h
  split at h
  · rcases Option.map_eq_some'.mp h with ⟨p, _, rfl⟩
    simp [okRes]
  · simp at h

theorem okRes_consumptionRule {ml : List Char} {r : FollowupResult}
    (h : consumptionRule ml = some r) : okRes r := by
  unfold consumptionRule at h
  rcases Option.map_eq_some'.mp h with ⟨q, _, hr⟩
  rcases hfp : ALL_REFERENCE_PRONOUNS.find? (hitsIn ml) with _ | p <;>
    simp only [hfp] at hr <;> subst hr <;> simp [okRes]

theorem okRes_amountRule {ml : List Char} {r : FollowupResult}
    (h : amountRule ml = some r) : okRes r := by
  unfold amountRule at h
  rcases Option.map_eq_some'.mp h with ⟨q, _, rfl⟩
  simp [okRes]

theorem okRes_alternativeRule {ml : List Char} {r : FollowupResult}
    (h : alternativeRule ml = some r) : okRes r := by
  unfold alternativeRule at h
  rcases Option.map_eq_some'.mp h with ⟨q, _, rfl⟩
  simp [okRes]

theorem okRes_shortQuestionRule {ml : List Char} {wc : Nat} {r : FollowupResult}
    (h : shortQuestionRule ml wc = some r) : okRes r := by
  unfold shortQuestionRule at h
  split at h
  · rcases Option.map_eq_some'.mp h with ⟨w, _, rfl⟩
    simp [okRes]
  · simp at h

theorem okRes_defaultRule (orig ml : List Char) (wc : Nat) (b : Bool) :
    okRes (defaultRule orig ml wc b) := by
  unfold defaultRule
  split
  · simp [okRes]
  · split <;> simp [okRes]

theorem okRes_orElse {o : Option FollowupResult} {f : Unit → Option FollowupResult}
    (h1 : ∀ r, o = some r → okRes r) (h2 : ∀ r, f () = some r → okRes r) :
    ∀ r, o.orElse f = some r → okRes r := by
  intro r h
  cases o with
  | none => exact h2 r (by simpa [Option.orElse] using h)
  | some a =>
    simp only [Option.orElse] at h
    obtain rfl : a = r := Option.some.inj h
    exact h1 a rfl

theorem okRes_getD {o : Option FollowupResult} {d : FollowupResult}
    (h1 : ∀ r, o = some r → okRes r) (hd : okRes d) : okRes (o.getD d) := by
  cases o with
  | none => simpa using hd
  | some a => exact h1 a rfl

/-- Every result of `is_followup_question` satisfies the flag/threshold
agreement: it marks a follow-up exactly when confidence is ≥ 0.6 (every
positive rule emits ≥ 0.65; every negative branch emits 0). -/
theorem followup_conf_iff (m : String) (b : Bool) :
    okRes (is_followup_question m b) := by
  cases b with
  | true => simp [is_followup_question, okRes]
  | false =>
    have hdef : is_followup_question m false =
        (((((pronounRule (stripL (lowerL m.toList)) (countWords m.toList)).orElse
              (fun _ => consumptionRule (stripL (lowerL m.toList)))).orElse
                (fun _ => amountRule (stripL (lowerL m.toList)))).orElse
                  (fun _ => alternativeRule (stripL (lowerL m.toList)))).orElse
                    (fun _ => shortQuestionRule (stripL (lowerL m.toList))
                      (countWords m.toList))).getD
          (defaultRule m.toList (stripL (lowerL m.toList)) (countWords m.toList) false) := rfl
    rw [hdef]
    exact okRes_getD
      (okRes_orElse
        (okRes_orElse
          (okRes_orElse
            (okRes_orElse
              (fun r h => okRes_pronounRule h)
              (fun r h => okRes_consumptionRule h))
            (fun r h => okRes_amountRule h))
          (fun r h => okRes_alternativeRule h))
        (fun r h => okRes_shortQuestionRule h))
      (okRes_defaultRule _ _ _ _)

/-- C6: `should_use_food_context(message, has_food_context,
has_new_image)` returns True iff food context is present, no new image
accompanies the turn, and the classifier's confidence for
`(message, has_new_image)` is at least 0.6 (scaled: 60). -/
theorem should_use_food_context_iff (m : String) (hfc hni : Bool) :
    should_use_food_context m hfc hni = true ↔
      (hfc = true ∧ hni = false ∧ 60 ≤ (is_followup_question m hni).confidence) := by
  unfold should_use_food_context
  cases hfc <;> cases hni <;> simp
  exact fun h => (followup_conf_iff m false).mpr h

/-- C10: pronoun matching is substring containment, not word matching:
any message of at most 10 words whose lowercased text contains any
listed reference pronoun as a substring — the table includes the
single-character Gujarati pronoun "e", which occurs inside ordinary
English words — is classified `(True, 0.95)` by the short-message rule,
ahead of the consumption/amount/alternative rules. -/
theorem short_message_pronoun_substring_rule :
    ("e" ∈ ALL_REFERENCE_PRONOUNS) ∧
      ∀ (m : String), countWords m.toList ≤ 10 →
        (∃ p ∈ ALL_REFERENCE_PRONOUNS, hitsIn (stripL (lowerL m.toList)) p = true) →
        (is_followup_question m false).is_followup = true ∧
          (is_followup_question m false).confidence = 95 := by
  refine ⟨by decide, ?_⟩
  intro m hwc hex
  obtain ⟨p, hfind⟩ :
      ∃ p, ALL_REFERENCE_PRONOUNS.find? (hitsIn (stripL (lowerL m.toList))) = some p := by
    rcases hn : ALL_REFERENCE_PRONOUNS.find? (hitsIn (stripL (lowerL m.toList))) with _ | p
    · rw [List.find?_eq_none] at hn
      obtain ⟨q, hq, hhit⟩ := hex
      exact absurd hhit (hn q hq)
    · exact ⟨p, rfl⟩
  have hpr : pronounRule (stripL (lowerL m.toList)) (countWords m.toList) =
      some ⟨true, 95, .pronoun p⟩ := by
    unfold pronounRule
    rw [if_pos hwc, hfind]
    rfl
  have hdef : is_followup_question m false =
      (((((pronounRule (stripL (lowerL m.toList)) (countWords m.toList)).orElse
            (fun _ => consumptionRule (stripL (lowerL m.toList)))).orElse
              (fun _ => amountRule (stripL (lowerL m.toList)))).orElse
                (fun _ => alternativeRule (stripL (lowerL m.toList)))).orElse
                  (fun _ => shortQuestionRule (stripL (lowerL m.toList))
                    (countWords m.toList))).getD
        (defaultRule m.toList (stripL (lowerL m.toList)) (countWords m.toList) false) := rfl
  rw [hdef, hpr]
  exact ⟨rfl, rfl⟩

/-- C10 witness: "where" is one word and contains no reference pronoun
as a word, but contains the listed Gujarati pronoun "e" as a substring,
so it is classified as a follow-up at 0.95. -/
theorem short_message_pronoun_substring_rule_witness :
    (is_followup_question "where" false).is_followup = true ∧
      (is_followup_question "where" false).confidence = 95 :=
  short_message_pronoun_substring_rule.2 "where" (by decide) ⟨"e", by decide, by decide⟩

/-- Everything already accumulated in the running profile survives any
further sequence of intent merges (the union never drops elements). -/
theorem merge_intent_allergy_mono (old : IntentProfile) (news : List IntentProfile) :
    old.allergy_risks ⊆ (news.foldl merge_intent old).allergy_risks := by
  induction news generalizing old with
  | nil => exact Finset.Subset.refl _
  | cons c t ih =>
    rw [List.foldl_cons]
    exact Finset.Subset.trans Finset.subset_union_left (ih (merge_intent old c))

/-- C3: the intent-profile merge returns `allergy_risks` and
`top_concerns` equal to the set-union of old and new, hence across any
sequence of merges the resulting `allergy_risks` is a superset of every
`allergy_risks` set ever merged in. (`merge_intent` is modelled from
the spec: it is called from `routes/intent.py` but not defined under
`src/`.) -/
theorem merge_intent_union_and_monotone :
    (∀ old new : IntentProfile,
        (merge_intent old new).allergy_risks = old.allergy_risks ∪ new.allergy_risks ∧
          (merge_intent old new).top_concerns = old.top_concerns ∪ new.top_concerns) ∧
      ∀ (old : IntentProfile) (news : List IntentProfile) (p : IntentProfile),
        p ∈ news → p.allergy_risks ⊆ (news.foldl merge_intent old).allergy_risks := by
  refine ⟨fun old new => ⟨rfl, rfl⟩, ?_⟩
  intro old news
  induction news generalizing old with
  | nil => intro p hp; exact absurd hp (List.not_mem_nil p)
  | cons c t ih =>
    intro p hp
    rw [List.foldl_cons]
    rcases List.mem_cons.mp hp with rfl | hp2
    · exact Finset.Subset.trans Finset.subset_union_right
        (merge_intent_allergy_mono (merge_intent old p) t)
    · exact ih (merge_intent old c) p hp2

/-- C3 witness: merging a low-confidence `{"peanuts"}` profile with a
medium-confidence `{"dairy"}` profile keeps `{"dairy"}` in the result. -/
theorem merge_intent_union_and_monotone_witness :
    ({ user_goal := none, dietary_style := none, allergy_risks := {"dairy"},
       audience := none, top_concerns := ∅, confidence := .medium,
       clarifying_question := none } : IntentProfile).allergy_risks ⊆
      (([{ user_goal := none, dietary_style := none, allergy_risks := {"dairy"},
           audience := none, top_concerns := ∅, confidence := .medium,
           clarifying_question := none }]).foldl merge_intent
        { user_goal := none, dietary_style := none, allergy_risks := {"peanuts"},
          audience := none, top_concerns := ∅, confidence := .low,
          clarifying_question := none }).allergy_risks :=
  merge_intent_union_and_monotone.2 _ _ _ (List.mem_singleton_self _)

/-- C4 counterexample: `SessionManager.add_message` on an unknown
session id does not auto-create the session — the write is silently
dropped and the store still has no session afterwards, contradicting
the claim that every write path auto-creates and applies. -/
theorem add_message_does_not_autocreate :
    SessionManager.add_message SessionManager.empty "s1" "user" "hi" 0 "s1" = none := rfl

/-- C4 amended: every `InMemorySessionStore` write operation
(`append_message`, `set_context`, `set_intent`) auto-creates the
session and applies the write, and its read operations return
empty/default values for an unknown id; `SessionManager.add_message`
and `SessionManager.update_context` however are silent no-ops on an
unknown id (they neither create the session nor apply the write), and
its reads return empty defaults. All operations are total functions —
none raises for a missing session. -/
theorem session_stores_unknown_id_behavior :
    (∀ (s : InMemorySessionStore.State) (id role content : String) (now : Nat),
        s id = none →
          InMemorySessionStore.append_message s id role content now id =
            some ⟨id, now, [⟨role, content, now⟩], [], []⟩) ∧
      (∀ (s : InMemorySessionStore.State) (id : String) (ctx : Dict) (now : Nat),
          s id = none →
            InMemorySessionStore.set_context s id ctx now id =
              some ⟨id, now, [], ctx, []⟩) ∧
      (∀ (s : InMemorySessionStore.State) (id : String) (intent : Dict) (now : Nat),
          s id = none →
            InMemorySessionStore.set_intent s id intent now id =
              some ⟨id, now, [], [], intent⟩) ∧
      (∀ (s : InMemorySessionStore.State) (id : String), s id = none →
          InMemorySessionStore.get_history s id = [] ∧
            InMemorySessionStore.get_context s id = [] ∧
            InMemorySessionStore.get_intent s id = [] ∧
            InMemorySessionStore.get_session s id = none) ∧
      (∀ (m : SessionManager.State) (id role content : String) (now : Nat),
          m id = none → SessionManager.add_message m id role content now = m) ∧
      (∀ (m : SessionManager.State) (id : String) (upd : Dict) (now : Nat),
          m id = none → SessionManager.update_context m id upd now = m) ∧
      (∀ (m : SessionManager.State) (id : String), m id = none →
          SessionManager.get_conversation_history m id = [] ∧
            SessionManager.get_context m id = []) := by
  refine ⟨?_, ?_, ?_, ?_, ?_, ?_, ?_⟩
  · intro s id role content now h
    simp [InMemorySessionStore.append_message,
      InMemorySessionStore.create_session_if_not_exists, h]
  · intro s id ctx now h
    simp [InMemorySessionStore.set_context,
      InMemorySessionStore.create_session_if_not_exists, h, dictUpdate]
  · intro s id intent now h
    simp [InMemorySessionStore.set_intent,
      InMemorySessionStore.create_session_if_not_exists, h]
  · intro s id h
    refine ⟨?_, ?_, ?_, ?_⟩ <;>
      simp [InMemorySessionStore.get_history, InMemorySessionStore.get_context,
        InMemorySessionStore.get_intent, InMemorySessionStore.get_session, h]
  · intro m id role content now h
    simp [SessionManager.add_message, h]
  · intro m id upd now h
    simp [SessionManager.update_context, h]
  · intro m id h
    exact ⟨by simp [SessionManager.get_conversation_history, h],
      by simp [SessionManager.get_context, h]⟩

/-- C4 amended witness: the write paths of both stores exercised on the
empty stores — `append_message` and `set_context` auto-create and
apply, `add_message` and `update_context` silently drop the write. -/
theorem session_stores_unknown_id_behavior_witness :
    InMemorySessionStore.append_message InMemorySessionStore.empty "s" "user" "hi" 7 "s" =
        some ⟨"s", 7, [⟨"user", "hi", 7⟩], [], []⟩ ∧
      InMemorySessionStore.set_context InMemorySessionStore.empty "s" [("k", "v")] 7 "s" =
        some ⟨"s", 7, [], [("k", "v")], []⟩ ∧
      InMemorySessionStore.set_intent InMemorySessionStore.empty "s" [("k", "v")] 7 "s" =
        some ⟨"s", 7, [], [], [("k", "v")]⟩ ∧
      SessionManager.add_message SessionManager.empty "s" "user" "hi" 7 =
        SessionManager.empty ∧
      SessionManager.update_context SessionManager.empty "s" [("k", "v")] 7 =
        SessionManager.empty :=
  ⟨session_stores_unknown_id_behavior.1 InMemorySessionStore.empty "s" "user" "hi" 7 rfl,
    session_stores_unknown_id_behavior.2.1 InMemorySessionStore.empty "s" [("k", "v")] 7 rfl,
    session_stores_unknown_id_behavior.2.2.1 InMemorySessionStore.empty "s" [("k", "v")] 7 rfl,
    session_stores_unknown_id_behavior.2.2.2.2.1 SessionManager.empty "s" "user" "hi" 7 rfl,
    session_stores_unknown_id_behavior.2.2.2.2.2.1 SessionManager.empty "s" [("k", "v")] 7 rfl⟩

end NutriAI
